import Mathlib

/-!
Verification of the business-validation rules in
`src/organizations/serializers.py` (strategic-planning serializer module).

The Python serializers are embedded shallowly: Django model rows become Lean
structures, `Decimal`/`float` values become `ℚ`, query sets become lists,
`Model.objects.get(id=...)` becomes `List.find?`, Django `filter`/`exclude`
chains become `List.filter` chains, and raised `serializers.ValidationError`s
become values of explicit error inductives. `data.get(k, d)` on the incoming
validated-data dict becomes `Option.getD`.
-/

/-! ### Data model (rows of the external relational store) -/

/-- A `StrategicObjective` row: `weight`, optional `planner_weight` override,
`is_default` (global template vs organization-owned). -/
structure StrategicObjective where
  id : Nat
  title : String
  description : String
  weight : ℚ
  planner_weight : Option ℚ
  is_default : Bool
deriving DecidableEq, Repr

/-- A `StrategicInitiative` row.  `organization = none` models a NULL
organization column ("default"/global record). -/
structure StrategicInitiative where
  id : Nat
  name : String
  weight : ℚ
  organization : Option Nat
  is_default : Bool
  strategic_objective : Option Nat
  program : Option Nat
deriving DecidableEq, Repr

/-- A `PerformanceMeasure` row (only the columns the validation logic reads). -/
structure PerformanceMeasure where
  id : Nat
  initiative : Nat
  weight : ℚ
  organization : Option Nat
deriving DecidableEq, Repr

/-- A `MainActivity` row (only the columns the validation logic reads). -/
structure MainActivity where
  id : Nat
  initiative : Nat
  weight : ℚ
  organization : Option Nat
deriving DecidableEq, Repr

/-! ### Python `round(x, 2)`

Python's built-in `round` rounds half to even (banker's rounding).  The code
computes `round(float(initiative.weight) * 0.35, 2)`. -/

/-- Round a rational to the nearest integer, ties to even (Python `round`). -/
def roundHalfEven (x : ℚ) : ℤ :=
  let f := Int.floor x
  let frac := x - f
  if frac < 1/2 then f
  else if 1/2 < frac then f + 1
  else if f % 2 = 0 then f else f + 1

/-- Python `round(x, 2)`. -/
def round2 (x : ℚ) : ℚ := (roundHalfEven (x * 100) : ℚ) / 100

/-! ### `PerformanceMeasureSerializer.validate` (lines 431-509) -/

/-- The incoming validated-data dict for a performance measure.  `none` models
an absent key (for `selected_months`/`selected_quarters`, JSON list fields,
the empty list models an absent-or-empty value). -/
structure MeasureInput where
  initiative : Option Nat
  name : Option String
  weight : Option ℚ
  baseline : Option String
  target_type : Option String
  q1_target : Option ℚ
  q2_target : Option ℚ
  q3_target : Option ℚ
  q4_target : Option ℚ
  annual_target : Option ℚ
  organization : Option Nat
  selected_months : List String
  selected_quarters : List String
deriving DecidableEq, Repr

/-- Errors the measure `validate` can raise (`serializers.ValidationError`s),
carrying the numbers interpolated into the corresponding message strings. -/
inductive MeasureError where
  | cumulativeSumMismatch (quarterlySum annual : ℚ)
  | increasingOrderViolation
  | increasingQ4Mismatch (q4 annual : ℚ)
  | decreasingOrderViolation
  | decreasingQ4Mismatch (q4 annual : ℚ)
  | weightOutOfRange
deriving DecidableEq, Repr

/-- Exceptions that can escape the `try` body of the 35%-ceiling block:
`StrategicInitiative.DoesNotExist` from `objects.get`, or the
`serializers.ValidationError` raised when the ceiling is exceeded. -/
inductive PMExc where
  | doesNotExist
  | raisedValidationError (maxAllowed totalExisting thisMeasure : ℚ)
deriving DecidableEq, Repr

/-- The `try` body of the measure weight-ceiling check (lines 472-499):
look up the initiative, compute `round(float(initiative.weight) * 0.35, 2)`,
sum the weights of ALL measures of that initiative (excluding the instance
being updated, if any; no organization filter), and raise when
`total_existing + weight > max_allowed`. -/
def pmWeightCheckBody (db : List StrategicInitiative) (ms : List PerformanceMeasure)
    (instanceId : Option Nat) (iid : Nat) (w : ℚ) : Except PMExc Unit :=
  match db.find? (fun i => i.id == iid) with
  | none => Except.error PMExc.doesNotExist
  | some initiative =>
    let max_allowed_weight := round2 (initiative.weight * (35/100))
    let measures_query := ms.filter fun m =>
      m.initiative == iid &&
        (match instanceId with
         | some instId => m.id != instId
         | none => true)
    let total_existing_weight := (measures_query.map (fun m => m.weight)).sum
    if total_existing_weight + w > max_allowed_weight then
      Except.error (PMExc.raisedValidationError max_allowed_weight total_existing_weight w)
    else
      Except.ok ()

/-- The ceiling block as it behaves after its `except` clauses (lines 500-503):
`except StrategicInitiative.DoesNotExist: pass` and
`except Exception as e: logger.exception(...)`.  The `ValidationError` raised
inside the `try` is itself an `Exception`, so every outcome of the body is
swallowed and the block contributes no error. -/
def pmCeilingCheck (db : List StrategicInitiative) (ms : List PerformanceMeasure)
    (instanceId : Option Nat) (initOpt : Option Nat) (wOpt : Option ℚ) : Option MeasureError :=
  match initOpt, wOpt with
  | some iid, some w =>
    match pmWeightCheckBody db ms instanceId iid w with
    | Except.error PMExc.doesNotExist => none
    | Except.error (PMExc.raisedValidationError _ _ _) => none
    | Except.ok _ => none
  | _, _ => none

/-- The `target_type` if/elif chain (lines 432-468). -/
def targetTypeCheck (data : MeasureInput) : Option MeasureError :=
  let target_type := data.target_type.getD "cumulative"
  let q1 := data.q1_target.getD 0
  let q2 := data.q2_target.getD 0
  let q3 := data.q3_target.getD 0
  let q4 := data.q4_target.getD 0
  let annual := data.annual_target.getD 0
  if target_type = "cumulative" then
    if q1 + q2 + q3 + q4 ≠ annual then
      some (MeasureError.cumulativeSumMismatch (q1 + q2 + q3 + q4) annual)
    else none
  else if target_type = "increasing" then
    if ¬ (q1 ≤ q2 ∧ q2 ≤ q3 ∧ q3 ≤ q4) then some MeasureError.increasingOrderViolation
    else if q4 ≠ annual then some (MeasureError.increasingQ4Mismatch q4 annual)
    else none
  else if target_type = "decreasing" then
    if ¬ (q1 ≥ q2 ∧ q2 ≥ q3 ∧ q3 ≥ q4) then some MeasureError.decreasingOrderViolation
    else if q4 ≠ annual then some (MeasureError.decreasingQ4Mismatch q4 annual)
    else none
  else none

/-- `PerformanceMeasureSerializer.validate` (lines 431-509): target-type
checks, then the (inert) 35%-ceiling block, then the basic 0-100 weight-range
check.  `none` means the data is accepted (the method returns `data`
unchanged). -/
def PerformanceMeasureSerializer.validate (db : List StrategicInitiative)
    (ms : List PerformanceMeasure) (instanceId : Option Nat)
    (data : MeasureInput) : Option MeasureError :=
  match targetTypeCheck data with
  | some e => some e
  | none =>
    match pmCeilingCheck db ms instanceId data.initiative data.weight with
    | some e => some e
    | none =>
      if data.weight.getD 0 < 0 ∨ data.weight.getD 0 > 100 then
        some MeasureError.weightOutOfRange
      else none

/-- Measure validation with the weight-ceiling block removed: what `validate`
computes when the ceiling check is skipped or passes. -/
def measureChecksSansCeiling (data : MeasureInput) : Option MeasureError :=
  match targetTypeCheck data with
  | some e => some e
  | none =>
    if data.weight.getD 0 < 0 ∨ data.weight.getD 0 > 100 then
      some MeasureError.weightOutOfRange
    else none

/-! ### `StrategicInitiativeSerializer.validate` (lines 575-622) -/

/-- An `InitiativeFeed` row (only `id` and `name` are read). -/
structure InitiativeFeed where
  id : Nat
  name : String
deriving DecidableEq, Repr

/-- The incoming validated-data dict for a strategic initiative. -/
structure InitiativeInput where
  name : Option String
  weight : Option ℚ
  strategic_objective : Option Nat
  program : Option Nat
  initiative_feed : Option Nat
deriving DecidableEq, Repr

/-- Errors `StrategicInitiativeSerializer.validate` can raise. -/
inductive InitiativeError where
  | parentCount
  | weightExceedsParent (w effective : ℚ)
deriving DecidableEq, Repr

/-- The effective weight used by the parent-weight check (lines 608-612):
`planner_weight` only when the objective is a default objective AND
`planner_weight` is set, otherwise the objective's `weight`. -/
def effectiveWeightInInitiativeValidate (o : StrategicObjective) : ℚ :=
  match o.is_default, o.planner_weight with
  | true, some pw => pw
  | _, _ => o.weight

/-- `StrategicInitiativeSerializer.validate`: exactly-one-parent check, then
the name copy from the initiative feed, then the parent-objective weight check
(whose `try` catches only `StrategicObjective.DoesNotExist`; the raised
`ValidationError` propagates). -/
def StrategicInitiativeSerializer.validate (objectives : List StrategicObjective)
    (feeds : List InitiativeFeed) (data : InitiativeInput) :
    Except InitiativeError InitiativeInput :=
  let parents := (if data.strategic_objective.isSome then 1 else 0) +
    (if data.program.isSome then 1 else 0)
  if parents ≠ 1 then Except.error InitiativeError.parentCount
  else
    let data1 :=
      match data.initiative_feed, data.name with
      | some fid, none =>
        match feeds.find? (fun (f : InitiativeFeed) => f.id == fid) with
        | some feed => { data with name := some feed.name }
        | none => data
      | _, _ => data
    match data1.strategic_objective with
    | none => Except.ok data1
    | some oid =>
      match objectives.find? (fun (o : StrategicObjective) => o.id == oid) with
      | none => Except.ok data1
      | some objective =>
        let effective_weight := effectiveWeightInInitiativeValidate objective
        match data1.weight with
        | some w =>
          if w > effective_weight then
            Except.error (InitiativeError.weightExceedsParent w effective_weight)
          else Except.ok data1
        | none => Except.ok data1

/-! ### `MainActivitySerializer` (lines 192-239)

The class defines serializer fields and read-side aggregation methods only; it
declares no `validate` method and no field validators, so the framework's
default object-level validation returns the input unchanged. -/

/-- The incoming validated-data dict for a main activity. -/
structure ActivityInput where
  initiative : Option Nat
  name : Option String
  weight : Option ℚ
  organization : Option Nat
  selected_months : List String
  selected_quarters : List String
deriving DecidableEq, Repr

/-- `MainActivitySerializer` object-level validation: the class declares no
`validate`, so the default is used and every input is returned unchanged. -/
def MainActivitySerializer.validate (data : ActivityInput) :
    Except String ActivityInput :=
  Except.ok data

/-! ### `PlanReviewSerializer.validate` (lines 794-810) -/

/-- The evaluator referenced by a review (an `OrganizationUser`; only its
`role` is read). -/
structure Evaluator where
  role : String
deriving DecidableEq, Repr

/-- The plan referenced by a review (only its `status` is read). -/
structure PlanRef where
  status : String
deriving DecidableEq, Repr

/-- The incoming validated-data dict for a plan review.  `reviewed_at` is an
abstract timestamp; `none` models an absent or null value. -/
structure ReviewInput where
  evaluator : Option Evaluator
  plan : Option PlanRef
  status : Option String
  feedback : Option String
  reviewed_at : Option Nat
deriving DecidableEq, Repr

/-- Errors `PlanReviewSerializer.validate` can raise. -/
inductive ReviewError where
  | invalidReviewerRole
  | planNotSubmitted
deriving DecidableEq, Repr

/-- `PlanReviewSerializer.validate`: evaluator-role check, plan-status check,
then default `reviewed_at` to the current time when absent. -/
def PlanReviewSerializer.validate (now : Nat) (data : ReviewInput) :
    Except ReviewError ReviewInput :=
  if data.evaluator.any (fun e => e.role != "EVALUATOR") then
    Except.error ReviewError.invalidReviewerRole
  else if data.plan.any (fun p => p.status != "SUBMITTED") then
    Except.error ReviewError.planNotSubmitted
  else
    match data.reviewed_at with
    | none => Except.ok { data with reviewed_at := some now }
    | some _ => Except.ok data

/-! ### `PlanSerializer.get_selected_objectives_data` (lines 824-887) -/

/-- A `Plan` row: organization, the selected-objectives M2M association, and
the JSON map from objective id to overridden weight
(`selected_objectives_weights`; a map value may itself be JSON null). -/
structure Plan where
  id : Nat
  organization : Nat
  selected_objectives : List Nat
  selected_objectives_weights : List (Nat × Option ℚ)
deriving DecidableEq, Repr

/-- The database tables the plan assembly reads. -/
structure DB where
  objectives : List StrategicObjective
  initiatives : List StrategicInitiative
  measures : List PerformanceMeasure
  activities : List MainActivity
deriving DecidableEq, Repr

/-- `obj.selected_objectives.all()`: resolve the stored objective ids. -/
def resolveSelected (db : DB) (p : Plan) : List StrategicObjective :=
  p.selected_objectives.filterMap fun oid =>
    db.objectives.find? (fun (o : StrategicObjective) => o.id == oid)

/-- Lines 832-834: `custom_weight = None`, then
`if obj.selected_objectives_weights and str(objective.id) in ...:
custom_weight = obj.selected_objectives_weights[str(objective.id)]`. -/
def lookupCustomWeight (p : Plan) (oid : Nat) : Option ℚ :=
  if p.selected_objectives_weights.isEmpty then none
  else
    match p.selected_objectives_weights.lookup oid with
    | some v => v
    | none => none

/-- Lines 841-846: `objective.initiatives.filter(Q(is_default=True) |
Q(organization=obj.organization)).exclude(Q(organization__isnull=False) &
~Q(organization=obj.organization))`. -/
def filterInitiativesForPlan (inits : List StrategicInitiative) (objId org : Nat) :
    List StrategicInitiative :=
  (((inits.filter fun i => i.strategic_objective == some objId).filter fun i =>
      i.is_default || i.organization == some org).filter fun i =>
    ! (i.organization.isSome && i.organization != some org))

/-- Lines 851-855: `initiative.performance_measures.filter(
Q(organization=obj.organization)).exclude(Q(organization__isnull=False) &
~Q(organization=obj.organization))`.  A SQL `organization = X` predicate does
not match NULL organizations. -/
def filterMeasuresForPlan (ms : List PerformanceMeasure) (initId org : Nat) :
    List PerformanceMeasure :=
  (((ms.filter fun m => m.initiative == initId).filter fun m =>
      m.organization == some org).filter fun m =>
    ! (m.organization.isSome && m.organization != some org))

/-- Lines 858-862: same filter/exclude chain for main activities. -/
def filterActivitiesForPlan (acts : List MainActivity) (initId org : Nat) :
    List MainActivity :=
  (((acts.filter fun a => a.initiative == initId).filter fun a =>
      a.organization == some org).filter fun a =>
    ! (a.organization.isSome && a.organization != some org))

/-- One entry of the assembled `initiatives` list (lines 864-871); the child
serializer outputs are modelled by the selected rows themselves. -/
structure InitiativeData where
  id : Nat
  name : String
  weight : ℚ
  performance_measures : List PerformanceMeasure
  main_activities : List MainActivity
deriving DecidableEq, Repr

/-- One entry of the assembled `objectives_data` list (lines 873-882). -/
structure ObjectiveData where
  id : Nat
  title : String
  description : String
  weight : ℚ
  planner_weight : Option ℚ
  effective_weight : ℚ
  is_default : Bool
  initiatives : List InitiativeData
deriving DecidableEq, Repr

/-- `PlanSerializer.get_selected_objectives_data` (lines 824-887). -/
def PlanSerializer.get_selected_objectives_data (db : DB) (p : Plan) :
    List ObjectiveData :=
  (resolveSelected db p).map fun objective =>
    let custom_weight := lookupCustomWeight p objective.id
    let effective_weight :=
      match custom_weight with
      | some c => c
      | none => objective.weight
    let initiatives := filterInitiativesForPlan db.initiatives objective.id p.organization
    { id := objective.id
      title := objective.title
      description := objective.description
      weight := objective.weight
      planner_weight := custom_weight
      effective_weight := effective_weight
      is_default := objective.is_default
      initiatives := initiatives.map fun initiative =>
        { id := initiative.id
          name := initiative.name
          weight := initiative.weight
          performance_measures := filterMeasuresForPlan db.measures initiative.id p.organization
          main_activities := filterActivitiesForPlan db.activities initiative.id p.organization } }

/-! ### `PlanSerializer.create` / `PlanSerializer.update` (lines 893-971)

Both methods wrap their dependent writes in `with transaction.atomic()` and
catch every exception, re-raising it as
`serializers.ValidationError(f"Failed to ... plan: {e}")`.  The external
store's primitives (row create, M2M `set`, row save) are each given an
injectable fault so that a failure at any point of the sequence can be
examined.  `transaction.atomic` is modelled by its contract: if the body
fails, the store is exactly as it was on entry. -/

/-- A persistence-layer exception (`IntegrityError`, `DatabaseError`, ...),
carrying the message interpolated into the wrapped error. -/
inductive DbExc where
  | dbError (msg : String)
deriving DecidableEq, Repr

/-- The store of plan rows. -/
structure PlanStore where
  rows : List Plan
  nextId : Nat
deriving DecidableEq, Repr

/-- Fault injection for the three dependent writes. -/
structure Faults where
  createFails : Bool
  setFails : Bool
  saveFails : Bool
deriving DecidableEq, Repr

/-- The validated data handed to `create`/`update` (after the serializer
pops `selected_objectives` and `selected_objectives_weights`). -/
structure PlanInput where
  organization : Nat
  selected_objectives : List Nat
  selected_objectives_weights : List (Nat × Option ℚ)
deriving DecidableEq, Repr

/-- `Plan.objects.create(**validated_data)`. -/
def planObjectsCreate (f : Faults) (st : PlanStore) (vd : PlanInput) :
    Except DbExc (Plan × PlanStore) :=
  if f.createFails then Except.error (DbExc.dbError "create failed")
  else
    let p : Plan :=
      { id := st.nextId
        organization := vd.organization
        selected_objectives := []
        selected_objectives_weights := [] }
    Except.ok (p, { rows := st.rows ++ [p], nextId := st.nextId + 1 })

/-- `plan.selected_objectives.set(objective_ids)`: rewrite the M2M
association of the row. -/
def setSelectedObjectives (f : Faults) (st : PlanStore) (pid : Nat)
    (oids : List Nat) : Except DbExc PlanStore :=
  if f.setFails then Except.error (DbExc.dbError "set selected objectives failed")
  else
    Except.ok { st with rows := st.rows.map fun r =>
      if r.id == pid then { r with selected_objectives := oids } else r }

/-- `plan.save()` / `instance.save()`: write the instance's columns back to
its row (the M2M association is not a column and is not touched). -/
def saveRow (f : Faults) (st : PlanStore) (p : Plan) : Except DbExc PlanStore :=
  if f.saveFails then Except.error (DbExc.dbError "save failed")
  else
    Except.ok { st with rows := st.rows.map fun r =>
      if r.id == p.id then
        { r with organization := p.organization
                 selected_objectives_weights := p.selected_objectives_weights }
      else r }

/-- The body of the `with transaction.atomic()` block of `create`
(lines 896-925). -/
def planCreateBody (f : Faults) (st : PlanStore) (vd : PlanInput) :
    Except DbExc (Plan × PlanStore) := do
  let (plan, st1) ← planObjectsCreate f st vd
  let st2 ←
    if vd.selected_objectives.isEmpty then pure st1
    else setSelectedObjectives f st1 plan.id vd.selected_objectives
  if vd.selected_objectives_weights.isEmpty then
    pure (plan, st2)
  else
    let plan2 := { plan with selected_objectives_weights := vd.selected_objectives_weights }
    let st3 ← saveRow f st2 plan2
    pure (plan2, st3)

/-- The body of the `with transaction.atomic()` block of `update`
(lines 935-966): the setattr loop over the validated fields, the conditional
M2M set, the conditional weights assignment, then `instance.save()`. -/
def planUpdateBody (f : Faults) (st : PlanStore) (instance0 : Plan)
    (vd : PlanInput) : Except DbExc (Plan × PlanStore) := do
  let inst1 := { instance0 with organization := vd.organization }
  let st1 ←
    if vd.selected_objectives.isEmpty then pure st
    else setSelectedObjectives f st inst1.id vd.selected_objectives
  let inst2 :=
    if vd.selected_objectives_weights.isEmpty then inst1
    else { inst1 with selected_objectives_weights := vd.selected_objectives_weights }
  let st2 ← saveRow f st1 inst2
  pure (inst2, st2)

/-- `transaction.atomic`: if the body raised, every write it made is rolled
back and the store on entry is what remains visible. -/
def atomic (st : PlanStore) (body : Except DbExc (Plan × PlanStore)) :
    Except DbExc Plan × PlanStore :=
  match body with
  | Except.ok (p, st2) => (Except.ok p, st2)
  | Except.error e => (Except.error e, st)

/-- The serializer-level failure shape: `serializers.ValidationError`. -/
inductive SerializerError where
  | validationError (msg : String)
deriving DecidableEq, Repr

/-- `PlanSerializer.create` (lines 893-930): the atomic block, with every
exception caught and re-raised as
`ValidationError(f"Failed to create plan: {e}")`. -/
def PlanSerializer.create (f : Faults) (st : PlanStore) (vd : PlanInput) :
    Except SerializerError Plan × PlanStore :=
  match atomic st (planCreateBody f st vd) with
  | (Except.ok p, st2) => (Except.ok p, st2)
  | (Except.error (DbExc.dbError m), st2) =>
    (Except.error (SerializerError.validationError ("Failed to create plan: " ++ m)), st2)

/-- `PlanSerializer.update` (lines 932-971): same shape as `create`. -/
def PlanSerializer.update (f : Faults) (st : PlanStore) (instance0 : Plan)
    (vd : PlanInput) : Except SerializerError Plan × PlanStore :=
  match atomic st (planUpdateBody f st instance0 vd) with
  | (Except.ok p, st2) => (Except.ok p, st2)
  | (Except.error (DbExc.dbError m), st2) =>
    (Except.error (SerializerError.validationError ("Failed to update plan: " ++ m)), st2)

/-! ### Claim-side predicates

These definitions follow the wording of spec claims that are compared against
the code (they are NOT translations of the source). -/

/-- Claim C1's sibling sum: measures under the same initiative and in the same
visibility scope as the new measure (organization unset or equal to the
scope), excluding the instance being updated. -/
def claimMeasureSiblingSum (ms : List PerformanceMeasure) (iid : Nat)
    (scope : Option Nat) (instanceId : Option Nat) : ℚ :=
  ((ms.filter fun m =>
      m.initiative == iid &&
      (m.organization == none || m.organization == scope) &&
      (match instanceId with
       | some instId => m.id != instId
       | none => true)).map (fun m => m.weight)).sum

/-- Claim C1's ceiling condition: the scoped sibling sum plus the candidate
weight must not exceed 35% of the initiative's weight plus a 0.01 tolerance. -/
def claimMeasureCeilingOk (init : StrategicInitiative) (ms : List PerformanceMeasure)
    (scope : Option Nat) (instanceId : Option Nat) (w : ℚ) : Prop :=
  claimMeasureSiblingSum ms init.id scope instanceId + w ≤
    init.weight * (35/100) + 1/100

/-- Claim C2's sibling sum for main activities (same initiative, same
visibility scope, excluding the instance being updated). -/
def claimActivitySiblingSum (acts : List MainActivity) (iid : Nat)
    (scope : Option Nat) (instanceId : Option Nat) : ℚ :=
  ((acts.filter fun a =>
      a.initiative == iid &&
      (a.organization == none || a.organization == scope) &&
      (match instanceId with
       | some instId => a.id != instId
       | none => true)).map (fun a => a.weight)).sum

/-- Claim C2's ceiling condition: the scoped sibling sum plus the candidate
weight must not exceed 65% of the initiative's weight plus a 0.01 tolerance. -/
def claimActivityCeilingOk (init : StrategicInitiative) (acts : List MainActivity)
    (scope : Option Nat) (instanceId : Option Nat) (w : ℚ) : Prop :=
  claimActivitySiblingSum acts init.id scope instanceId + w ≤
    init.weight * (65/100) + 1/100

/-- Claim C6's effective weight as the claim words it: `planner_weight`
whenever it is set, regardless of any other condition on the objective. -/
def claimEffectiveWeight (o : StrategicObjective) : ℚ :=
  o.planner_weight.getD o.weight

/-- The plan assembly as amended by claim C7's counterexample: identical to
`PlanSerializer.get_selected_objectives_data` except that the child filters
are written in their simplified form — a child measure or activity is
returned exactly when its organization equals the plan's organization
(organization-unset records are NOT returned). -/
def amendedSelectedObjectivesData (db : DB) (p : Plan) : List ObjectiveData :=
  (resolveSelected db p).map fun objective =>
    let custom_weight := lookupCustomWeight p objective.id
    let effective_weight :=
      match custom_weight with
      | some c => c
      | none => objective.weight
    let initiatives := filterInitiativesForPlan db.initiatives objective.id p.organization
    { id := objective.id
      title := objective.title
      description := objective.description
      weight := objective.weight
      planner_weight := custom_weight
      effective_weight := effective_weight
      is_default := objective.is_default
      initiatives := initiatives.map fun initiative =>
        { id := initiative.id
          name := initiative.name
          weight := initiative.weight
          performance_measures := db.measures.filter fun m =>
            m.initiative == initiative.id && m.organization == some p.organization
          main_activities := db.activities.filter fun a =>
            a.initiative == initiative.id && a.organization == some p.organization } }

/-! ### Concrete instances used by counterexamples and witnesses -/

/-- An initiative of weight 100 (so 35% of it is exactly 35). -/
def c1init : StrategicInitiative :=
  { id := 1, name := "init", weight := 100, organization := none,
    is_default := true, strategic_objective := some 1, program := none }

/-- A measure of weight 50 under `c1init`, with consistent cumulative
targets: claim C1 demands rejection, since 0 + 50 exceeds 35 + 0.01. -/
def c1input : MeasureInput :=
  { initiative := some 1, name := some "m", weight := some 50,
    baseline := none, target_type := some "cumulative",
    q1_target := some 10, q2_target := some 20, q3_target := some 30,
    q4_target := some 40, annual_target := some 100, organization := none,
    selected_months := ["July"], selected_quarters := [] }

/-- Cumulative targets summing to 100 with annual target 100.005: within the
0.01 tolerance claim C3 asserts, but not exactly equal. -/
def c3input : MeasureInput :=
  { initiative := none, name := some "m", weight := some 10,
    baseline := none, target_type := some "cumulative",
    q1_target := some 10, q2_target := some 20, q3_target := some 30,
    q4_target := some 40, annual_target := some (100 + 5/1000),
    organization := none, selected_months := ["July"], selected_quarters := [] }

/-- A consistent cumulative input used by the C3 witness. -/
def c3winput : MeasureInput :=
  { initiative := none, name := some "m", weight := some 10,
    baseline := none, target_type := some "cumulative",
    q1_target := some 10, q2_target := some 20, q3_target := some 30,
    q4_target := some 40, annual_target := some 100, organization := none,
    selected_months := ["July"], selected_quarters := [] }

/-- Claim C4's example: increasing targets (4,10,20,30), annual 30, with
baseline "5"; the claim demands rejection because q1 is below the baseline. -/
def c4input : MeasureInput :=
  { initiative := none, name := some "m", weight := some 10,
    baseline := some "5", target_type := some "increasing",
    q1_target := some 4, q2_target := some 10, q3_target := some 20,
    q4_target := some 30, annual_target := some 30, organization := none,
    selected_months := ["July"], selected_quarters := [] }

/-- An increasing input used by the C4 witness (baseline respected). -/
def c4winput : MeasureInput :=
  { initiative := none, name := some "m", weight := some 10,
    baseline := some "5", target_type := some "increasing",
    q1_target := some 5, q2_target := some 10, q3_target := some 20,
    q4_target := some 30, annual_target := some 30, organization := none,
    selected_months := ["July"], selected_quarters := [] }

/-- A valid measure input whose `selected_months` and `selected_quarters` are
both empty: claim C5 demands it fail with `MissingPeriodSelection`. -/
def c5input : MeasureInput :=
  { initiative := none, name := some "m", weight := some 10,
    baseline := none, target_type := some "cumulative",
    q1_target := some 10, q2_target := some 20, q3_target := some 30,
    q4_target := some 40, annual_target := some 100, organization := none,
    selected_months := [], selected_quarters := [] }

/-- A sibling activity of weight 60 under `c1init`, in the global scope. -/
def c2sibling : MainActivity :=
  { id := 1, initiative := 1, weight := 60, organization := none }

/-- An activity input of weight 10: with `c2sibling`, 60 + 10 exceeds
65% of 100 plus the 0.01 tolerance, so claim C2 demands rejection. -/
def c2input : ActivityInput :=
  { initiative := some 1, name := some "a", weight := some 10,
    organization := none, selected_months := ["July"], selected_quarters := [] }

/-- A non-default objective with `weight = 10` and `planner_weight = 50`. -/
def c6obj : StrategicObjective :=
  { id := 1, title := "obj", description := "", weight := 10,
    planner_weight := some 50, is_default := false }

/-- An initiative of weight 30 under `c6obj`: claim C6 says the effective
weight is 50 (planner override regardless of any other condition), so the
input must pass; the code compares against 10 and rejects. -/
def c6input : InitiativeInput :=
  { name := some "i", weight := some 30, strategic_objective := some 1,
    program := none, initiative_feed := none }

/-- A globally-scoped (organization-unset) measure under initiative 1. -/
def c7measure : PerformanceMeasure :=
  { id := 1, initiative := 1, weight := 5, organization := none }

/-- A database with one selected objective, one default initiative and the
organization-unset measure `c7measure`. -/
def c7db : DB :=
  { objectives := [{ id := 1, title := "o", description := "", weight := 20,
                     planner_weight := none, is_default := true }],
    initiatives := [{ id := 1, name := "i", weight := 10, organization := none,
                      is_default := true, strategic_objective := some 1,
                      program := none }],
    measures := [c7measure],
    activities := [] }

/-- A plan of organization 1 selecting objective 1, with no weight overrides. -/
def c7plan : Plan :=
  { id := 1, organization := 1, selected_objectives := [1],
    selected_objectives_weights := [] }

/-- A review input by an EVALUATOR on a SUBMITTED plan, without a
`reviewed_at` value. -/
def c8input : ReviewInput :=
  { evaluator := some { role := "EVALUATOR" }, plan := some { status := "SUBMITTED" },
    status := some "APPROVED", feedback := none, reviewed_at := none }

/-- A store with a single existing plan row. -/
def c9store : PlanStore :=
  { rows := [{ id := 1, organization := 1, selected_objectives := [1],
               selected_objectives_weights := [] }],
    nextId := 2 }

/-- Faults making the M2M `selected_objectives.set` write fail: the failure
happens after the plan row is created. -/
def c9faults : Faults :=
  { createFails := false, setFails := true, saveFails := false }

/-- Validated data for a plan create/update touching all three writes. -/
def c9input : PlanInput :=
  { organization := 2, selected_objectives := [1],
    selected_objectives_weights := [(1, some 30)] }

/-- A measure input whose initiative id (7) has no row, so the ceiling
check's `objects.get` raises `DoesNotExist`. -/
def c10input : MeasureInput :=
  { initiative := some 7, name := some "m", weight := some 50,
    baseline := none, target_type := some "cumulative",
    q1_target := some 10, q2_target := some 20, q3_target := some 30,
    q4_target := some 40, annual_target := some 100, organization := none,
    selected_months := ["July"], selected_quarters := [] }

/-- A default objective with planner override 50 (used by the C6 witness). -/
def c6wobj : StrategicObjective :=
  { id := 1, title := "obj", description := "", weight := 10,
    planner_weight := some 50, is_default := true }

/-- An initiative input of weight 30 under `c6wobj` (used by the C6 witness). -/
def c6winput : InitiativeInput :=
  { name := some "i", weight := some 30, strategic_objective := some 1,
    program := none, initiative_feed := none }

/-- The existing plan row updated by the C9 witness. -/
def c9plan : Plan :=
  { id := 1, organization := 1, selected_objectives := [1],
    selected_objectives_weights := [] }

/-! ### Helper lemmas -/

/-- Every outcome of the ceiling `try` body is swallowed by the `except`
clauses, so the block contributes no error. -/
theorem pmCeilingCheck_eq_none (db : List StrategicInitiative)
    (ms : List PerformanceMeasure) (instanceId initOpt : Option Nat)
    (wOpt : Option ℚ) : pmCeilingCheck db ms instanceId initOpt wOpt = none := by
  unfold pmCeilingCheck
  cases initOpt with
  | none => rfl
  | some iid =>
    cases wOpt with
    | none => rfl
    | some w =>
      cases h : pmWeightCheckBody db ms instanceId iid w with
      | ok u => simp [h]
      | error e => cases e <;> simp [h]

/-- Measure validation always computes exactly the non-ceiling checks. -/
theorem validate_eq_sansCeiling (db : List StrategicInitiative)
    (ms : List PerformanceMeasure) (instanceId : Option Nat) (data : MeasureInput) :
    PerformanceMeasureSerializer.validate db ms instanceId data =
      measureChecksSansCeiling data := by
  unfold PerformanceMeasureSerializer.validate measureChecksSansCeiling
  rw [pmCeilingCheck_eq_none]

/-! ### Claim C1 -/

/-- Claim C1 counterexample: an initiative of weight 100 with no sibling
measures and a candidate measure of weight 50.  The claim says validation
must fail (0 + 50 exceeds 35% of 100 plus the 0.01 tolerance), but the code
accepts the input: the ceiling `ValidationError` is caught by the branch's
own `except Exception` handler. -/
theorem C1_counterexample :
    ¬ claimMeasureCeilingOk c1init [] none none 50 ∧
    PerformanceMeasureSerializer.validate [c1init] [] none c1input = none := by
  constructor
  · norm_num [claimMeasureCeilingOk, claimMeasureSiblingSum, c1init]
  · rw [validate_eq_sansCeiling]
    norm_num [measureChecksSansCeiling, targetTypeCheck, c1input]

/-- Claim C1 amended: the 35%-ceiling branch of
`PerformanceMeasureSerializer.validate` never rejects anything — the
`ValidationError` it raises is swallowed by its own generic exception
handler — so the validation outcome is independent of the initiative table,
of the sibling measures, and of the instance being updated. -/
theorem C1_amended (db db2 : List StrategicInitiative)
    (ms ms2 : List PerformanceMeasure) (instanceId instanceId2 : Option Nat)
    (data : MeasureInput) :
    PerformanceMeasureSerializer.validate db ms instanceId data =
      PerformanceMeasureSerializer.validate db2 ms2 instanceId2 data := by
  rw [validate_eq_sansCeiling, validate_eq_sansCeiling]

/-! ### Claim C5 -/

/-- Claim C5 counterexample: a measure input whose `selected_months` and
`selected_quarters` are both empty is accepted; no `MissingPeriodSelection`
check exists in `PerformanceMeasureSerializer.validate`. -/
theorem C5_counterexample :
    c5input.selected_months = [] ∧ c5input.selected_quarters = [] ∧
    PerformanceMeasureSerializer.validate [] [] none c5input = none := by
  refine ⟨rfl, rfl, ?_⟩
  rw [validate_eq_sansCeiling]
  norm_num [measureChecksSansCeiling, targetTypeCheck, c5input]

/-- Claim C5 amended: `PerformanceMeasureSerializer.validate` performs no
period-selection check at all — its outcome is the same for any values of
`selected_months` and `selected_quarters`, and the target-shape rules are
applied regardless. -/
theorem C5_amended (db : List StrategicInitiative) (ms : List PerformanceMeasure)
    (instanceId : Option Nat) (data : MeasureInput)
    (months quarters : List String) :
    PerformanceMeasureSerializer.validate db ms instanceId
        { data with selected_months := months, selected_quarters := quarters } =
      PerformanceMeasureSerializer.validate db ms instanceId data := by
  rw [validate_eq_sansCeiling, validate_eq_sansCeiling]
  rfl

/-! ### Claim C10 -/

/-- Claim C10: when the parent-initiative lookup fails (or any other
exception, including the ceiling `ValidationError` itself, escapes the `try`
body), the 35%-ceiling check is silently skipped and validation computes
exactly the remaining (non-ceiling) checks — no error is raised from the
weight-ceiling branch. -/
theorem C10_ceiling_exception_swallowed (db : List StrategicInitiative)
    (ms : List PerformanceMeasure) (instanceId : Option Nat) (data : MeasureInput)
    (iid : Nat) (w : ℚ)
    (h1 : data.initiative = some iid) (h2 : data.weight = some w)
    (h3 : (pmWeightCheckBody db ms instanceId iid w).isOk = false) :
    PerformanceMeasureSerializer.validate db ms instanceId data =
      measureChecksSansCeiling data :=
  validate_eq_sansCeiling db ms instanceId data

/-- Witness for C10: initiative id 7 has no row in an empty table, so the
lookup raises `DoesNotExist`, and validation proceeds as if the ceiling
check had passed. -/
theorem C10_ceiling_exception_swallowed_witness :
    c10input.initiative = some 7 ∧ c10input.weight = some 50 ∧
    (pmWeightCheckBody [] [] none 7 50).isOk = false ∧
    PerformanceMeasureSerializer.validate [] [] none c10input =
      measureChecksSansCeiling c10input :=
  ⟨rfl, rfl, rfl,
    C10_ceiling_exception_swallowed [] [] none c10input 7 50 rfl rfl rfl⟩

/-- For cumulative inputs, the target-type chain reduces to the exact-sum
comparison. -/
theorem targetTypeCheck_cumulative (data : MeasureInput)
    (ht : data.target_type.getD "cumulative" = "cumulative") :
    targetTypeCheck data =
      if data.q1_target.getD 0 + data.q2_target.getD 0 + data.q3_target.getD 0 +
          data.q4_target.getD 0 ≠ data.annual_target.getD 0 then
        some (MeasureError.cumulativeSumMismatch
          (data.q1_target.getD 0 + data.q2_target.getD 0 + data.q3_target.getD 0 +
            data.q4_target.getD 0) (data.annual_target.getD 0))
      else none := by
  unfold targetTypeCheck
  rw [ht]
  simp

/-- For increasing inputs, the target-type chain reduces to the
ascending-order check and the exact Q4 comparison. -/
theorem targetTypeCheck_increasing (data : MeasureInput)
    (ht : data.target_type.getD "cumulative" = "increasing") :
    targetTypeCheck data =
      if ¬ (data.q1_target.getD 0 ≤ data.q2_target.getD 0 ∧
            data.q2_target.getD 0 ≤ data.q3_target.getD 0 ∧
            data.q3_target.getD 0 ≤ data.q4_target.getD 0) then
        some MeasureError.increasingOrderViolation
      else if data.q4_target.getD 0 ≠ data.annual_target.getD 0 then
        some (MeasureError.increasingQ4Mismatch (data.q4_target.getD 0)
          (data.annual_target.getD 0))
      else none := by
  unfold targetTypeCheck
  rw [ht]
  simp

/-! ### Claim C3 -/

/-- Claim C3 counterexample: cumulative targets (10,20,30,40) with annual
target 100.005.  The quarterly sum is within 0.01 of the annual target, so
the claim says the input is accepted, but the code compares for exact
equality and rejects it. -/
theorem C3_counterexample :
    PerformanceMeasureSerializer.validate [] [] none c3input =
      some (MeasureError.cumulativeSumMismatch 100 (100 + 5/1000)) ∧
    (100 + 5/1000 : ℚ) - (10 + 20 + 30 + 40) ≤ 1/100 ∧
    (10 + 20 + 30 + 40 : ℚ) - (100 + 5/1000) ≤ 1/100 := by
  refine ⟨?_, by norm_num, by norm_num⟩
  rw [validate_eq_sansCeiling]
  norm_num [measureChecksSansCeiling, targetTypeCheck, c3input]

/-- Claim C3 amended: for cumulative inputs (with the weight in range),
validation accepts exactly when the quarterly sum equals the annual target
EXACTLY — there is no 0.01 tolerance. -/
theorem C3_amended (db : List StrategicInitiative) (ms : List PerformanceMeasure)
    (instanceId : Option Nat) (data : MeasureInput)
    (ht : data.target_type.getD "cumulative" = "cumulative")
    (hw : ¬ (data.weight.getD 0 < 0 ∨ data.weight.getD 0 > 100)) :
    PerformanceMeasureSerializer.validate db ms instanceId data = none ↔
      data.q1_target.getD 0 + data.q2_target.getD 0 + data.q3_target.getD 0 +
        data.q4_target.getD 0 = data.annual_target.getD 0 := by
  rw [validate_eq_sansCeiling]
  unfold measureChecksSansCeiling
  rw [targetTypeCheck_cumulative data ht]
  by_cases hs : data.q1_target.getD 0 + data.q2_target.getD 0 + data.q3_target.getD 0 +
      data.q4_target.getD 0 = data.annual_target.getD 0
  · simp [hs, hw]
  · simp [hs]

/-- Witness for the amended C3 on a concrete consistent cumulative input. -/
theorem C3_amended_witness :
    PerformanceMeasureSerializer.validate [] [] none c3winput = none ↔
      c3winput.q1_target.getD 0 + c3winput.q2_target.getD 0 + c3winput.q3_target.getD 0 +
        c3winput.q4_target.getD 0 = c3winput.annual_target.getD 0 :=
  C3_amended [] [] none c3winput rfl (by norm_num [c3winput])

/-! ### Claim C4 -/

/-- Claim C4 counterexample: an increasing input with baseline "5" and
quarterly targets (4,10,20,30), annual 30.  The claim says it must be
rejected because q1 is below the baseline, but the code accepts it: the
baseline is never consulted. -/
theorem C4_counterexample :
    PerformanceMeasureSerializer.validate [] [] none c4input = none ∧
    c4input.baseline = some "5" ∧ c4input.q1_target.getD 0 < 5 := by
  refine ⟨?_, rfl, by norm_num [c4input]⟩
  rw [validate_eq_sansCeiling]
  unfold measureChecksSansCeiling
  rw [targetTypeCheck_increasing c4input rfl]
  norm_num [c4input]

/-- Claim C4 amended: for increasing inputs (with the weight in range),
validation accepts exactly when the quarterly targets are ascending and Q4
equals the annual target EXACTLY; the baseline field is never read, so the
outcome is identical for every baseline value (the decreasing branch is
symmetric, also without a baseline rule). -/
theorem C4_amended (db : List StrategicInitiative) (ms : List PerformanceMeasure)
    (instanceId : Option Nat) (data : MeasureInput) (b : Option String)
    (ht : data.target_type.getD "cumulative" = "increasing")
    (hw : ¬ (data.weight.getD 0 < 0 ∨ data.weight.getD 0 > 100)) :
    (PerformanceMeasureSerializer.validate db ms instanceId { data with baseline := b } =
        PerformanceMeasureSerializer.validate db ms instanceId data) ∧
    (PerformanceMeasureSerializer.validate db ms instanceId data = none ↔
      (data.q1_target.getD 0 ≤ data.q2_target.getD 0 ∧
       data.q2_target.getD 0 ≤ data.q3_target.getD 0 ∧
       data.q3_target.getD 0 ≤ data.q4_target.getD 0) ∧
      data.q4_target.getD 0 = data.annual_target.getD 0) := by
  constructor
  · rw [validate_eq_sansCeiling, validate_eq_sansCeiling]
    rfl
  · rw [validate_eq_sansCeiling]
    unfold measureChecksSansCeiling
    rw [targetTypeCheck_increasing data ht]
    by_cases hord : data.q1_target.getD 0 ≤ data.q2_target.getD 0 ∧
        data.q2_target.getD 0 ≤ data.q3_target.getD 0 ∧
        data.q3_target.getD 0 ≤ data.q4_target.getD 0
    · by_cases hq4 : data.q4_target.getD 0 = data.annual_target.getD 0
      · rw [if_neg (not_not_intro hord), if_neg (fun h => h hq4), if_neg hw]
        simp only [true_iff, iff_true]
        exact ⟨hord, hq4⟩
      · rw [if_neg (not_not_intro hord), if_pos hq4]
        simp [hq4]
    · rw [if_pos hord]
      simp [hord]

/-- Witness for the amended C4 on a concrete well-formed increasing input. -/
theorem C4_amended_witness :
    (PerformanceMeasureSerializer.validate [] [] none { c4winput with baseline := some "9" } =
        PerformanceMeasureSerializer.validate [] [] none c4winput) ∧
    (PerformanceMeasureSerializer.validate [] [] none c4winput = none ↔
      (c4winput.q1_target.getD 0 ≤ c4winput.q2_target.getD 0 ∧
       c4winput.q2_target.getD 0 ≤ c4winput.q3_target.getD 0 ∧
       c4winput.q3_target.getD 0 ≤ c4winput.q4_target.getD 0) ∧
      c4winput.q4_target.getD 0 = c4winput.annual_target.getD 0) :=
  C4_amended [] [] none c4winput (some "9") rfl (by norm_num [c4winput])

/-! ### Claim C6 -/

/-- Claim C6 counterexample: a NON-default objective with weight 10 and
planner_weight 50, and an initiative of weight 30.  The claim says the
effective weight is the planner override (50) regardless of any other
condition, so the initiative must pass; the code only honours the override
on default objectives and rejects 30 against 10. -/
theorem C6_counterexample :
    StrategicInitiativeSerializer.validate [c6obj] [] c6input =
      Except.error (InitiativeError.weightExceedsParent 30 10) ∧
    (30 : ℚ) ≤ claimEffectiveWeight c6obj := by
  constructor
  · rfl
  · norm_num [claimEffectiveWeight, c6obj]

/-- Claim C6 amended: for an initiative whose sole parent is a strategic
objective that exists, with a candidate weight present, validation fails
exactly when the weight exceeds the objective's effective weight, where the
effective weight is the planner override only when the objective is a
DEFAULT objective with `planner_weight` set, and the objective's own weight
otherwise. -/
theorem C6_amended (objectives : List StrategicObjective)
    (feeds : List InitiativeFeed) (data : InitiativeInput) (oid : Nat)
    (objective : StrategicObjective) (w : ℚ)
    (h1 : data.strategic_objective = some oid) (h2 : data.program = none)
    (h3 : objectives.find? (fun (o : StrategicObjective) => o.id == oid) = some objective)
    (h4 : data.weight = some w) :
    (StrategicInitiativeSerializer.validate objectives feeds data =
        Except.error (InitiativeError.weightExceedsParent w
          (effectiveWeightInInitiativeValidate objective)) ↔
      w > effectiveWeightInInitiativeValidate objective) ∧
    ((StrategicInitiativeSerializer.validate objectives feeds data).isOk ↔
      ¬ w > effectiveWeightInInitiativeValidate objective) := by
  obtain ⟨nm, wt, so, prog, feed⟩ := data
  simp only at h1 h2 h4
  subst h1 h2 h4
  unfold StrategicInitiativeSerializer.validate
  cases feed with
  | none =>
    simp only [Option.isSome_some, Option.isSome_none, h3]
    by_cases hgt : w > effectiveWeightInInitiativeValidate objective
    · simp [hgt, Except.isOk, Except.toBool]
    · simp [hgt, Except.isOk, Except.toBool]
  | some fid =>
    cases nm with
    | some n =>
      simp only [Option.isSome_some, Option.isSome_none, h3]
      by_cases hgt : w > effectiveWeightInInitiativeValidate objective
      · simp [hgt, Except.isOk, Except.toBool]
      · simp [hgt, Except.isOk, Except.toBool]
    | none =>
      cases hf : feeds.find? (fun (f : InitiativeFeed) => f.id == fid) with
      | none =>
        simp only [Option.isSome_some, Option.isSome_none, hf, h3]
        by_cases hgt : w > effectiveWeightInInitiativeValidate objective
        · simp [hgt, Except.isOk, Except.toBool]
        · simp [hgt, Except.isOk, Except.toBool]
      | some feedRow =>
        simp only [Option.isSome_some, Option.isSome_none, hf, h3]
        by_cases hgt : w > effectiveWeightInInitiativeValidate objective
        · simp [hgt, Except.isOk, Except.toBool]
        · simp [hgt, Except.isOk, Except.toBool]

/-- Witness for the amended C6: a default objective with planner override 50
accepts an initiative of weight 30. -/
theorem C6_amended_witness :
    (StrategicInitiativeSerializer.validate [c6wobj] [] c6winput =
        Except.error (InitiativeError.weightExceedsParent 30
          (effectiveWeightInInitiativeValidate c6wobj)) ↔
      (30 : ℚ) > effectiveWeightInInitiativeValidate c6wobj) ∧
    ((StrategicInitiativeSerializer.validate [c6wobj] [] c6winput).isOk ↔
      ¬ (30 : ℚ) > effectiveWeightInInitiativeValidate c6wobj) :=
  C6_amended [c6wobj] [] c6winput 1 c6wobj 30 rfl rfl rfl rfl

/-! ### Claim C2 -/

/-- Claim C2 counterexample: an initiative of weight 100 with an existing
sibling activity of weight 60 in the same (global) scope, and a new activity
of weight 10.  The claim says creation must fail with
`WeightExceedsAllocation` (60 + 10 exceeds 65% of 100 plus the 0.01
tolerance), but `MainActivitySerializer` performs no weight validation and
accepts the input. -/
theorem C2_counterexample :
    MainActivitySerializer.validate c2input = Except.ok c2input ∧
    ¬ claimActivityCeilingOk c1init [c2sibling] none none 10 := by
  refine ⟨rfl, ?_⟩
  norm_num [claimActivityCeilingOk, claimActivitySiblingSum, c1init, c2sibling]

/-- Claim C2 amended: `MainActivitySerializer` performs no sibling-weight
ceiling validation at all — every activity input passes its object-level
validation unchanged, regardless of sibling weights and of the 65% ceiling. -/
theorem C2_amended (data : ActivityInput) :
    MainActivitySerializer.validate data = Except.ok data := rfl

/-! ### Claim C8 -/

/-- Claim C8: review validation fails with `InvalidReviewerRole` whenever the
evaluator's role is not EVALUATOR; it fails whenever the referenced plan's
status is not SUBMITTED; and a successful validation fills `reviewed_at` with
the current time when the input did not supply one. -/
theorem C8_review_validation (now : Nat) (data : ReviewInput) (e : Evaluator)
    (p : PlanRef) (he : data.evaluator = some e) (hp : data.plan = some p) :
    (e.role ≠ "EVALUATOR" →
      PlanReviewSerializer.validate now data = Except.error ReviewError.invalidReviewerRole) ∧
    (p.status ≠ "SUBMITTED" → (PlanReviewSerializer.validate now data).isOk = false) ∧
    (e.role = "EVALUATOR" → p.status = "SUBMITTED" → data.reviewed_at = none →
      PlanReviewSerializer.validate now data = Except.ok { data with reviewed_at := some now }) := by
  refine ⟨?_, ?_, ?_⟩
  · intro hrole
    simp [PlanReviewSerializer.validate, he, Option.any, hrole]
  · intro hstatus
    unfold PlanReviewSerializer.validate
    rw [he, hp]
    by_cases hrole : e.role = "EVALUATOR"
    · simp [Option.any, hrole, hstatus, Except.isOk, Except.toBool]
    · simp [Option.any, hrole, Except.isOk, Except.toBool]
  · intro hrole hstatus hreviewed
    unfold PlanReviewSerializer.validate
    rw [he, hp, hreviewed]
    simp [Option.any, hrole, hstatus]

/-- Witness for C8: an EVALUATOR reviewing a SUBMITTED plan with no
`reviewed_at` supplied gets the current time filled in. -/
theorem C8_review_validation_witness :
    PlanReviewSerializer.validate 42 c8input =
      Except.ok { c8input with reviewed_at := some 42 } :=
  (C8_review_validation 42 c8input { role := "EVALUATOR" } { status := "SUBMITTED" }
    rfl rfl).2.2 rfl rfl rfl

/-! ### Claim C7 -/

/-- The measure filter/exclude chain of the plan assembly collapses to: the
measure belongs to the initiative AND its organization equals the plan's
organization.  Organization-unset measures are excluded by the first `filter`
already. -/
theorem filterMeasuresForPlan_eq (ms : List PerformanceMeasure) (initId org : Nat) :
    filterMeasuresForPlan ms initId org =
      ms.filter fun m => m.initiative == initId && m.organization == some org := by
  unfold filterMeasuresForPlan
  rw [List.filter_filter, List.filter_filter]
  apply List.filter_congr
  intro m _
  cases h : m.organization with
  | none => simp [h]
  | some o =>
    by_cases ho : o = org
    · simp [h, ho]
    · have hne : (o == org) = false := by simp [ho]
      simp [h, hne]

/-- Same collapse for the main-activity filter/exclude chain. -/
theorem filterActivitiesForPlan_eq (acts : List MainActivity) (initId org : Nat) :
    filterActivitiesForPlan acts initId org =
      acts.filter fun a => a.initiative == initId && a.organization == some org := by
  unfold filterActivitiesForPlan
  rw [List.filter_filter, List.filter_filter]
  apply List.filter_congr
  intro a _
  cases h : a.organization with
  | none => simp [h]
  | some o =>
    by_cases ho : o = org
    · simp [h, ho]
    · have hne : (o == org) = false := by simp [ho]
      simp [h, hne]

/-- Claim C7 counterexample: a plan of organization 1 whose selected objective
has a default initiative with one organization-unset (global) measure.  The
claim says the assembly returns exactly the organization-unset records union
the plan organization's records, so the global measure must appear; the code
filters children by `organization = plan.organization` only and returns no
measures. -/
theorem C7_counterexample :
    (PlanSerializer.get_selected_objectives_data c7db c7plan).map
        (fun od => od.initiatives.map (fun idat => idat.performance_measures)) = [[[]]] ∧
    c7db.measures.filter (fun m =>
        m.initiative == 1 &&
          (m.organization == none || m.organization == some c7plan.organization)) =
      [c7measure] := by
  constructor
  · rfl
  · rfl

/-- Claim C7 amended: the plan assembly resolves each selected objective's
effective weight from the plan's weight-override map (falling back to the
objective's own weight), but the child performance measures and main
activities it returns are exactly those whose organization EQUALS the plan's
organization — organization-unset (global) child records are not included. -/
theorem C7_amended (db : DB) (p : Plan) :
    PlanSerializer.get_selected_objectives_data db p =
      amendedSelectedObjectivesData db p := by
  unfold PlanSerializer.get_selected_objectives_data amendedSelectedObjectivesData
  simp only [filterMeasuresForPlan_eq, filterActivitiesForPlan_eq]

/-! ### Claim C9 -/

/-- Claim C9: plan create and update are atomic — whenever they return an
error, the visible store is exactly the store on entry (all dependent writes
rolled back), and the error is the wrapped serializer failure shape, never a
raw persistence exception. -/
theorem C9_plan_atomicity (f : Faults) (st : PlanStore) (instance0 : Plan)
    (vd : PlanInput) :
    (∀ e st2, PlanSerializer.create f st vd = (Except.error e, st2) →
      st2 = st ∧ ∃ m, e = SerializerError.validationError m) ∧
    (∀ e st2, PlanSerializer.update f st instance0 vd = (Except.error e, st2) →
      st2 = st ∧ ∃ m, e = SerializerError.validationError m) := by
  constructor
  · intro e st2 h
    unfold PlanSerializer.create at h
    cases hb : planCreateBody f st vd with
    | ok pr =>
      rw [hb] at h
      cases pr with
      | mk p st3 => simp [atomic] at h
    | error de =>
      cases de with
      | dbError m =>
        rw [hb] at h
        simp [atomic] at h
        exact ⟨h.2.symm, "Failed to create plan: " ++ m, h.1.symm⟩
  · intro e st2 h
    unfold PlanSerializer.update at h
    cases hb : planUpdateBody f st instance0 vd with
    | ok pr =>
      rw [hb] at h
      cases pr with
      | mk p st3 => simp [atomic] at h
    | error de =>
      cases de with
      | dbError m =>
        rw [hb] at h
        simp [atomic] at h
        exact ⟨h.2.symm, "Failed to update plan: " ++ m, h.1.symm⟩

/-- Witness for C9: with the M2M write failing AFTER the plan row was
created, `create` reports the wrapped validation failure and the visible
store is unchanged. -/
theorem C9_plan_atomicity_witness :
    c9store = c9store ∧
    ∃ m, SerializerError.validationError "Failed to create plan: set selected objectives failed" =
      SerializerError.validationError m :=
  (C9_plan_atomicity c9faults c9store c9plan c9input).1
    (SerializerError.validationError "Failed to create plan: set selected objectives failed")
    c9store rfl
